import Mathlib

/-!
Verification of the table-printing helpers in
`src/include/MSc_projects_table.hpp` (namespace `MSC_PROJECTS`).

The C++ code only ever appends text to `std::cout`; we embed each function
as a pure `String`-valued definition describing exactly the text it appends.
A printable value is modelled by its printed representation (a `String`),
since the templates accept any streamable type and only its textual form
reaches the output.  `std::setw(w)` with the default (right) adjustment and
space fill is modelled by left-padding with spaces to width `w`, with no
truncation when the text is longer than `w`.  `std::endl` is a newline.
-/

namespace MSC_PROJECTS

/-- The process-wide column width constant (`static const int columnWidth=14`). -/
def columnWidth : Nat := 14

/-- `cout << setw(w) << t`: the text `t` right-aligned in a field of width `w`
(space fill, no truncation when `t` is longer than `w`). -/
def setw (w : Nat) (s : String) : String :=
  String.mk (List.replicate (w - s.length) ' ' ++ s.data)

/-- The default argument of `addColumnEntry`: the placeholder text
`std::string("--------------")` (14 dashes). -/
def placeholder : String := "--------------"

/-- Scalar overload `addColumnEntry(const T& t)`:
emits `"|" << setw(columnWidth) << t`. -/
def addColumnEntry (t : String) : String :=
  "|" ++ setw columnWidth t

/-- The no-argument call `addColumnEntry()`: C++ fills in the default
argument, so it is the scalar overload applied to the placeholder text. -/
def addColumnEntryDefault : String :=
  addColumnEntry placeholder

/-- Vector overload `addColumnEntry(const std::vector<T>& t)`:
the loop `for(auto ti : t) cout << "|" << setw(columnWidth) << ti`. -/
def addColumnEntryVec : List String → String
  | [] => ""
  | ti :: rest => ("|" ++ setw columnWidth ti) ++ addColumnEntryVec rest

/-- `endRow()`: emits `"|" << endl`. -/
def endRow : String := "|" ++ "\n"

/-- `emptyTableRow(unsigned int n)`: the loop calls `addColumnEntry()`
`n` times, then the function writes `"|" << endl` inline. -/
def emptyTableRow : Nat → String
  | 0 => "|" ++ "\n"
  | n + 1 => addColumnEntryDefault ++ emptyTableRow n

/-- An argument to the variadic `tableRow`: C++ overload resolution sends a
`std::vector` argument to the vector overload of `addColumnEntry` and any
other printable value to the scalar overload. -/
inductive Printable where
  | scalar (s : String)
  | vec (ss : List String)
deriving DecidableEq

/-- The `addColumnEntry(v)` call inside `tableRow`, after C++ overload
resolution on the argument's type. -/
def addColumnEntryP : Printable → String
  | .scalar s => addColumnEntry s
  | .vec ss => addColumnEntryVec ss

/-- The variadic `tableRow(T first, Args... args)` recursion, with the
argument pack modelled as head plus tail list.  Base case
`tableRow(T v) { addColumnEntry(v); endRow(); }`; recursive case
`tableRow(T first, Args... args) { addColumnEntry(first); tableRow(args...); }`. -/
def tableRow : Printable → List Printable → String
  | v, [] => addColumnEntryP v ++ endRow
  | first, a :: args => addColumnEntryP first ++ tableRow a args

/-- The call sequence of C10's right-hand side, taken from the spec's words:
`n` calls of the no-argument Cell Emitter `addColumnEntry()` followed by one
call of `endRow()`. -/
def nPlaceholdersThenEndRow : Nat → String
  | 0 => endRow
  | n + 1 => addColumnEntryDefault ++ nPlaceholdersThenEndRow n

end MSC_PROJECTS

namespace MSC_PROJECTS

/-- Appending a string to the front of a joined list collapses into join of cons. -/
lemma string_join_cons (s : String) (l : List String) :
    String.join (s :: l) = s ++ String.join l := by
  rw [String.join_eq, String.join_eq]
  apply String.ext
  simp [String.data_append]

/-- `emptyTableRow n` is `n` placeholder cells joined together, then `endRow`'s text. -/
lemma emptyTableRow_eq_join (n : Nat) :
    emptyTableRow n = String.join (List.replicate n addColumnEntryDefault) ++ endRow := by
  induction n with
  | zero => rfl
  | succ n ih =>
    have step : emptyTableRow (n + 1) = addColumnEntryDefault ++ emptyTableRow n := rfl
    rw [step, ih, List.replicate_succ, string_join_cons, String.append_assoc]

/-- C1: for every `n`, `emptyTableRow n` writes exactly `n` placeholder cells
followed by exactly one row terminator; for `n = 0` it is the terminator alone,
and `emptyTableRow 2` is the literal `|--------------|--------------|` plus a
newline. -/
theorem emptyTableRow_cells_then_terminator :
    (∀ n : Nat, emptyTableRow n =
      String.join (List.replicate n addColumnEntryDefault) ++ endRow) ∧
    emptyTableRow 0 = "|" ++ "\n" ∧
    emptyTableRow 2 = "|--------------|--------------|" ++ "\n" :=
  ⟨emptyTableRow_eq_join, by decide, by decide⟩

/-- C2: `tableRow "a" "b"` produces the literal `|             a|             b|`
followed by a newline: each cell is a `|` then the value right-aligned in a
14-character field, and the row ends with a trailing `|` and a line break. -/
theorem tableRow_two_scalars_literal :
    tableRow (.scalar "a") [.scalar "b"] = "|             a|             b|" ++ "\n" := by
  decide

/-- C3: for every value whose printed representation has length at most 14,
`addColumnEntry v` appends exactly 15 characters: one `|` separator followed by
a 14-character field containing `v` (as its suffix, after the padding). -/
theorem addColumnEntry_fits_width (v : String) (h : v.length ≤ 14) :
    (addColumnEntry v).length = 15 ∧
    (addColumnEntry v).data.head? = some '|' ∧
    v.data <:+ (addColumnEntry v).data := by
  have h' : v.data.length ≤ 14 := h
  refine ⟨?_, ?_, ?_⟩
  · rw [addColumnEntry, String.length_append, setw]
    simp only [String.length, List.length_append, List.length_replicate]
    show 1 + (columnWidth - v.data.length + v.data.length) = 15
    rw [show columnWidth = 14 from rfl]
    omega
  · rw [addColumnEntry, String.data_append]
    rfl
  · rw [addColumnEntry, String.data_append, setw]
    show v.data <:+ "|".data ++ (List.replicate (columnWidth - v.length) ' ' ++ v.data)
    rw [← List.append_assoc]
    exact List.suffix_append _ _

/-- Witness for C3 at the concrete input `"a"`. -/
theorem addColumnEntry_fits_width_witness :
    ("a" : String).length ≤ 14 ∧
    ((addColumnEntry "a").length = 15 ∧
     (addColumnEntry "a").data.head? = some '|' ∧
     ("a" : String).data <:+ (addColumnEntry "a").data) :=
  ⟨by decide, addColumnEntry_fits_width "a" (by decide)⟩

/-- C4: `tableRow a b c` emits exactly the three cells for `a`, `b`, `c` in
argument order followed by exactly one row terminator; the recursive case emits
the first argument's cell then recurses, and the single-argument base case
emits that cell and then the terminator. -/
theorem tableRow_three_cells_one_terminator (a b c : String) :
    tableRow (.scalar a) [.scalar b, .scalar c] =
      addColumnEntry a ++ (addColumnEntry b ++ (addColumnEntry c ++ endRow)) ∧
    (∀ v : Printable, tableRow v [] = addColumnEntryP v ++ endRow) ∧
    (∀ (first v : Printable) (args : List Printable),
      tableRow first (v :: args) = addColumnEntryP first ++ tableRow v args) :=
  ⟨rfl, fun _ => rfl, fun _ _ _ => rfl⟩

/-- C5: the vector overload of `addColumnEntry` emits one cell per element in
element order: its output is the concatenation of the scalar overload's outputs
over the elements. -/
theorem addColumnEntryVec_eq_map_join (ts : List String) :
    addColumnEntryVec ts = String.join (ts.map addColumnEntry) := by
  induction ts with
  | nil => rfl
  | cons t rest ih =>
    rw [List.map_cons, string_join_cons, ← ih]
    rfl

/-- C6: for every value whose printed representation is longer than the
14-character column width, `addColumnEntry v` emits `|` followed by the full
text without truncation, so the cell exceeds 15 characters. -/
theorem addColumnEntry_overflow_no_truncation (v : String) (h : 14 < v.length) :
    addColumnEntry v = "|" ++ v ∧ 15 < (addColumnEntry v).length := by
  have h0 : columnWidth - v.length = 0 :=
    Nat.sub_eq_zero_of_le (Nat.le_of_lt h)
  have e : addColumnEntry v = "|" ++ v := by
    rw [addColumnEntry, setw, h0]
    rfl
  refine ⟨e, ?_⟩
  rw [e, String.length_append, show ("|" : String).length = 1 from rfl]
  omega

/-- Witness for C6 at a concrete 15-character input. -/
theorem addColumnEntry_overflow_no_truncation_witness :
    14 < ("123456789012345" : String).length ∧
    (addColumnEntry "123456789012345" = "|" ++ "123456789012345" ∧
     15 < (addColumnEntry "123456789012345").length) :=
  ⟨by decide, addColumnEntry_overflow_no_truncation "123456789012345" (by decide)⟩

/-- C7: the no-argument form `addColumnEntry()` always emits `|` followed by
the 14-dash placeholder text, independently of whatever output came before
(the emitter is stateless: it appends the same text after any prefix). -/
theorem addColumnEntryDefault_placeholder :
    addColumnEntryDefault = "|" ++ placeholder ∧
    addColumnEntryDefault = "|--------------" ∧
    placeholder.length = columnWidth ∧
    ∀ out : String, out ++ addColumnEntryDefault = out ++ "|--------------" := by
  refine ⟨by decide, by decide, by decide, fun out => ?_⟩
  rw [show addColumnEntryDefault = "|--------------" from by decide]

/-- C8: every call of `endRow` appends exactly one `|` separator and exactly
one line break, regardless of what output (however many cells) came before. -/
theorem endRow_appends_separator_newline (out : String) :
    (out ++ endRow).data = out.data ++ ['|', '\n'] ∧
    (out ++ endRow).length = out.length + 2 := by
  constructor
  · rw [String.data_append, show endRow.data = ['|', '\n'] from by decide]
  · rw [String.length_append, show endRow.length = 2 from by decide]

/-- C9: the vector overload applied to an empty sequence emits nothing, and
`tableRow` whose sole argument is an empty sequence outputs exactly the row
terminator `|` plus newline and nothing else. -/
theorem empty_vector_emits_nothing :
    addColumnEntryVec [] = "" ∧
    tableRow (.vec []) [] = "|" ++ "\n" :=
  ⟨rfl, rfl⟩

/-- C10: for every `n`, the output of `emptyTableRow n` is byte-for-byte the
output of calling the no-argument `addColumnEntry()` `n` times followed by one
call of `endRow()`, even though `emptyTableRow` writes its terminator inline. -/
theorem emptyTableRow_refines_cells_endRow (n : Nat) :
    emptyTableRow n = nPlaceholdersThenEndRow n := by
  induction n with
  | zero => rfl
  | succ n ih =>
    show addColumnEntryDefault ++ emptyTableRow n = addColumnEntryDefault ++ nPlaceholdersThenEndRow n
    rw [ih]

end MSC_PROJECTS
